import Mathlib

/-!
Verification of the Aqua-Lert leak-inference engine.

The definitions below are a shallow embedding of the Python source:
  * `src/app/utils.py`  — sigmoid scoring, smoothing pass, topology traversal;
  * `src/app/models.py` — enumerations and row shapes of the data model;
  * `src/app/main.py`   — the bulk alert-resolution operation.
Real-valued arithmetic of the score functions is modelled over `ℝ`
(the Python code computes with `math.exp` on floats); the smoothing and
alert-lifecycle parts, which only use field arithmetic and comparisons,
are modelled executably over `ℚ`.
-/

namespace AquaLert

/-! ## Data model (src/app/models.py) -/

/-- Alert categories, from `models.AlertType`. -/
inductive AlertType
  | leak
  | anomaly
  | low_battery
  deriving DecidableEq, Repr

/-- Alert severities, from `models.Severity`. -/
inductive Severity
  | low
  | medium
  | high
  deriving DecidableEq, Repr

/-- Alert lifecycle states, from `models.AlertStatus`. -/
inductive AlertStatus
  | active
  | resolved
  deriving DecidableEq, Repr

/-- A sensor reading as consumed by the traversal: the two fields of
`models.SensorData` that `traverse_and_check` reads. -/
structure Reading where
  flow_rate : ℝ
  battery_level : ℝ

/-- An alert row as created by the inference engine (`models.Alert`,
without the db-assigned id and timestamp, which no checked property uses). -/
structure Alert where
  sensor_from : String
  sensor_to : String
  alert_type : AlertType
  severity : Severity
  probability : ℝ
  status : AlertStatus

/-- Module constant `utils.LOW_BATTERY_THRESHOLD`. -/
def LOW_BATTERY_THRESHOLD : ℝ := 20

/-- Module constant `utils.ANOMALY_FLOW_DROP`. -/
def ANOMALY_FLOW_DROP : ℝ := 0.5

/-! ## Sigmoid scoring (src/app/utils.py lines 20-41) -/

/-- `utils.sigmoid`: standard logistic sigmoid. -/
noncomputable def sigmoid (x x0 k : ℝ) : ℝ :=
  1 / (1 + Real.exp (-k * (x - x0)))

/-- `utils.compute_leak_probability_sigmoid`: leak probability (percent). -/
noncomputable def compute_leak_probability_sigmoid
    (flow1 flow2 battery1 battery2 : ℝ) : ℝ :=
  let flow_avg := (flow1 + flow2) / 2
  let flow_diff := |flow1 - flow2|
  let battery_avg := (battery1 + battery2) / 2
  let flow_score := sigmoid flow_avg 50 0.1
  let diff_score := sigmoid flow_diff 5 0.5
  let battery_score := 1 - sigmoid battery_avg 30 0.2
  (0.5 * flow_score + 0.4 * diff_score + 0.1 * battery_score) * 100

/-! ### Range of the sigmoid -/

lemma sigmoid_pos (x x0 k : ℝ) : 0 < sigmoid x x0 k := by
  unfold sigmoid
  have h := Real.exp_pos (-k * (x - x0))
  positivity

lemma sigmoid_lt_one (x x0 k : ℝ) : sigmoid x x0 k < 1 := by
  unfold sigmoid
  have h := Real.exp_pos (-k * (x - x0))
  rw [div_lt_one (by linarith)]
  linarith

/-- C5: for all flow and battery inputs, the leak probability returned by
`compute_leak_probability_sigmoid` lies strictly between 0 and 100. -/
theorem C5_leak_prob_in_range (flow1 flow2 battery1 battery2 : ℝ) :
    0 < compute_leak_probability_sigmoid flow1 flow2 battery1 battery2 ∧
    compute_leak_probability_sigmoid flow1 flow2 battery1 battery2 < 100 := by
  unfold compute_leak_probability_sigmoid
  have h1p := sigmoid_pos ((flow1 + flow2) / 2) 50 0.1
  have h1o := sigmoid_lt_one ((flow1 + flow2) / 2) 50 0.1
  have h2p := sigmoid_pos |flow1 - flow2| 5 0.5
  have h2o := sigmoid_lt_one |flow1 - flow2| 5 0.5
  have h3p := sigmoid_pos ((battery1 + battery2) / 2) 30 0.2
  have h3o := sigmoid_lt_one ((battery1 + battery2) / 2) 30 0.2
  constructor <;> nlinarith

/-! ## Latest-reading lookup and topology (src/app/utils.py lines 45-57, 191-196) -/

/-- `utils.get_latest_data`: the reading just delivered in the current batch
when present, otherwise the latest persisted reading. -/
def get_latest_data {α : Type} (sensor_id : String)
    (new_readings : String → Option α) (db_latest : String → Option α) : Option α :=
  match new_readings sensor_id with
  | some d => some d
  | none => db_latest sensor_id

/-- `utils.build_topology`: adjacency map parent → ordered children, built by
appending each edge's child under its parent, in edge order. -/
def build_topology (mappings : List (String × String)) : String → List String :=
  fun parent_id => (mappings.filter (fun m => m.1 == parent_id)).map (fun m => m.2)

/-- The root set computed at src/app/utils.py lines 176-177: sensors that are
not the child of any topology edge. -/
def pass_roots (mappings : List (String × String)) (sensors : List String) :
    List String :=
  sensors.filter (fun s => !(mappings.any (fun m => m.2 == s)))

/-! ## Per-edge rule block (src/app/utils.py lines 113-170) -/

/-- The severity dispatch at src/app/utils.py lines 122-127. -/
noncomputable def severity_of (leak_prob : ℝ) : Severity :=
  if leak_prob < 50 then Severity.low
  else if leak_prob < 70 then Severity.medium
  else Severity.high

/-- The alerts created for one evaluated parent→child edge, in creation order:
the conditional leak alert, the conditional anomaly alert, then a low-battery
alert for each of the two endpoints whose battery is below the threshold. -/
noncomputable def edge_alerts (parent_id child_id : String)
    (parent_data child_data : Reading) : List Alert :=
  let leak_prob := compute_leak_probability_sigmoid
    parent_data.flow_rate child_data.flow_rate
    parent_data.battery_level child_data.battery_level
  (if 50 ≤ leak_prob then
    [{ sensor_from := parent_id, sensor_to := child_id,
       alert_type := AlertType.leak, severity := severity_of leak_prob,
       probability := leak_prob, status := AlertStatus.active }]
   else []) ++
  (if parent_data.flow_rate - child_data.flow_rate < -ANOMALY_FLOW_DROP then
    [{ sensor_from := parent_id, sensor_to := child_id,
       alert_type := AlertType.anomaly, severity := Severity.medium,
       probability := 85, status := AlertStatus.active }]
   else []) ++
  (([(parent_id, parent_data), (child_id, child_data)].filter
      (fun sd => decide (sd.2.battery_level < LOW_BATTERY_THRESHOLD))).map
    (fun sd =>
      { sensor_from := sd.1, sensor_to := sd.1,
        alert_type := AlertType.low_battery, severity := Severity.low,
        probability := 90, status := AlertStatus.active }))

/-! ## Depth-first traversal (src/app/utils.py lines 102-187)

The Python closure recurses with no termination guarantee; `fuel` bounds the
recursion depth in the embedding, and a `none` result means the bound was hit
— i.e. the source recursion is still running at that depth. -/

/-- `traverse_and_check`: evaluate the rule block on every parent→child edge
and recurse into each child, skipping children with no reading. -/
noncomputable def traverse_and_check (topology : String → List String)
    (latest : String → Option Reading) : Nat → String → Option (List Alert)
  | 0, _ => none
  | fuel + 1, parent_id =>
    match latest parent_id with
    | none => some []
    | some parent_data =>
      (topology parent_id).foldr
        (fun child_id acc =>
          match latest child_id with
          | none => acc
          | some child_data =>
            match traverse_and_check topology latest fuel child_id, acc with
            | some sub, some rest =>
              some (edge_alerts parent_id child_id parent_data child_data
                    ++ sub ++ rest)
            | _, _ => none)
        (some [])

/-- The traversal half of `utils.process_sensor_data_topology`
(lines 102-187): start `traverse_and_check` once per root and collect every
alert generated across the pass. -/
noncomputable def process_sensor_data_traversal
    (mappings : List (String × String)) (sensors : List String)
    (new_readings : String → Option Reading)
    (db_latest : String → Option Reading) (fuel : Nat) : Option (List Alert) :=
  (pass_roots mappings sensors).foldr
    (fun root acc =>
      match traverse_and_check (build_topology mappings)
              (fun s => get_latest_data s new_readings db_latest) fuel root,
            acc with
      | some a, some rest => some (a ++ rest)
      | _, _ => none)
    (some [])

/-! ## Smoothing pass (src/app/utils.py lines 61-99)

The per-sensor loop of `process_sensor_data_topology`: compute a smoothed
flow and a flow delta for every sensor with an available reading and append
one `ProcessedData` row for it. Field arithmetic is exact here, so this part
is modelled executably over `ℚ`. -/

/-- A `models.SensorData` row as consumed by the smoothing loop. -/
structure SensorDataRow where
  sensor_id : String
  flow_rate : ℚ
  battery_level : ℚ
  deriving DecidableEq, Repr

/-- A `models.ProcessedData` row (without the db-assigned id/timestamp). -/
structure ProcessedDataRow where
  sensor_id : String
  smoothed_flow : ℚ
  flow_diff : ℚ
  deriving DecidableEq, Repr

/-- The query at src/app/utils.py lines 76-82: the at most 5 most recent
processed rows of a sensor, newest first. The table is kept in append order
(oldest first), so the query is filter, reverse, take 5. -/
def last_proc_for (table : List ProcessedDataRow) (sensor_id : String) :
    List ProcessedDataRow :=
  ((table.filter (fun r => r.sensor_id == sensor_id)).reverse).take 5

/-- The row built for one sensor at src/app/utils.py lines 83-97: smoothed
flow is the average of the window's smoothed values (or the raw flow when the
window is empty), and the flow delta is taken against the newest prior row. -/
def smoothing_step (sensor_id : String) (data : SensorDataRow)
    (table : List ProcessedDataRow) : ProcessedDataRow :=
  let last_proc := last_proc_for table sensor_id
  let smoothed_flow : ℚ :=
    if last_proc.isEmpty then data.flow_rate
    else (last_proc.map (fun p => p.smoothed_flow)).sum / last_proc.length
  let flow_diff : ℚ :=
    match last_proc with
    | [] => 0
    | p0 :: _ => smoothed_flow - p0.smoothed_flow
  { sensor_id := sensor_id, smoothed_flow := smoothed_flow,
    flow_diff := flow_diff }

/-- The smoothing half of `utils.process_sensor_data_topology` (lines 70-99):
for each sensor in order, fetch its latest reading (batch first, then the
persisted store), skip it when none exists, otherwise append one processed
row computed from the table as accumulated so far. -/
def process_sensor_data_smoothing (sensors : List String)
    (new_readings : String → Option SensorDataRow)
    (db_latest : String → Option SensorDataRow)
    (table : List ProcessedDataRow) : List ProcessedDataRow :=
  sensors.foldl
    (fun tbl s =>
      match get_latest_data s new_readings db_latest with
      | none => tbl
      | some d => tbl ++ [smoothing_step s d tbl])
    table

/-- The processed rows belonging to one sensor, in append order. -/
def rows_for (table : List ProcessedDataRow) (sensor_id : String) :
    List ProcessedDataRow :=
  table.filter (fun r => r.sensor_id == sensor_id)

/-- Arithmetic mean of a list of rationals. -/
def mean (l : List ℚ) : ℚ := l.sum / l.length

/-! ## Bulk alert resolution (src/app/main.py lines 377-387) -/

/-- An alert row as touched by bulk resolution: its id and status. -/
structure AlertRow where
  alert_id : Nat
  status : AlertStatus
  deriving DecidableEq, Repr

/-- `main.bulk_resolve_alerts`: select the rows whose id is listed, answer
404 (`none`) when there are none, otherwise set every selected row to
`resolved` and report the number of selected rows. -/
def bulk_resolve_alerts (alert_ids : List Nat) (table : List AlertRow) :
    Option (List AlertRow × Nat) :=
  let matched := table.filter (fun a => alert_ids.contains a.alert_id)
  if matched.isEmpty then none
  else
    some (table.map (fun a =>
            if alert_ids.contains a.alert_id then
              { a with status := AlertStatus.resolved }
            else a),
          matched.length)

/-! ## Numeric bounds on the exponential, used to settle the sigmoid scores
at the concrete inputs of the checked scenarios. -/

lemma two_lt_exp_one : (2 : ℝ) < Real.exp 1 := by
  have h := Real.exp_one_gt_d9
  linarith

lemma exp_five_gt_100 : (100 : ℝ) < Real.exp 5 := by
  have h1 : (2.7 : ℝ) < Real.exp 1 := by
    have := Real.exp_one_gt_d9
    linarith
  have h5 : Real.exp 5 = Real.exp 1 ^ 5 := by
    rw [show (5 : ℝ) = ((5 : ℕ) : ℝ) * (1 : ℝ) by norm_num, Real.exp_nat_mul]
  rw [h5]
  calc (100 : ℝ) < 2.7 ^ 5 := by norm_num
    _ < Real.exp 1 ^ 5 := by gcongr

lemma one_lt_exp_two_half : (1 : ℝ) < Real.exp 2.5 := by
  have h0 : (0 : ℝ) < 2.5 := by norm_num
  calc (1 : ℝ) = Real.exp 0 := (Real.exp_zero).symm
    _ < Real.exp 2.5 := Real.exp_lt_exp.mpr h0

lemma exp_neg_27_half_lt_half : Real.exp (-27.5) < 1 / 2 := by
  have h1 : Real.exp (-27.5) ≤ Real.exp (-1) := Real.exp_le_exp.mpr (by norm_num)
  have h2 : Real.exp (-1) = (Real.exp 1)⁻¹ := Real.exp_neg 1
  have hpos : (0 : ℝ) < Real.exp 1 := Real.exp_pos 1
  have hinv : (0 : ℝ) < (Real.exp 1)⁻¹ := by positivity
  have hmul : (Real.exp 1)⁻¹ * Real.exp 1 = 1 :=
    inv_mul_cancel₀ (ne_of_gt hpos)
  nlinarith [two_lt_exp_one]

lemma exp_neg_14_lt_one : Real.exp (-14) < 1 :=
  Real.exp_lt_one_iff.mpr (by norm_num)

/-! ## Concrete sigmoid scores -/

lemma clps_unfold (f1 f2 b1 b2 : ℝ) :
    compute_leak_probability_sigmoid f1 f2 b1 b2 =
      (0.5 * sigmoid ((f1 + f2) / 2) 50 0.1 +
       0.4 * sigmoid |f1 - f2| 5 0.5 +
       0.1 * (1 - sigmoid ((b1 + b2) / 2) 30 0.2)) * 100 := rfl

/-- Scenario A of the spec: parent flow 80, child flow 20, both batteries
100. The score is strictly between 50 and 70 (about 65), not at least 70. -/
lemma leak_prob_80_20 :
    50 ≤ compute_leak_probability_sigmoid 80 20 100 100 ∧
    compute_leak_probability_sigmoid 80 20 100 100 < 70 := by
  rw [clps_unfold]
  have s1 : sigmoid ((80 + 20) / 2 : ℝ) 50 0.1 = 1 / 2 := by
    unfold sigmoid
    norm_num
  have s2 : sigmoid |(80 : ℝ) - 20| 5 0.5 = 1 / (1 + Real.exp (-27.5)) := by
    unfold sigmoid
    norm_num
  have s3 : sigmoid ((100 + 100) / 2 : ℝ) 30 0.2 = 1 / (1 + Real.exp (-14)) := by
    unfold sigmoid
    norm_num
  rw [s1, s2, s3]
  have hu0 : (0 : ℝ) < Real.exp (-27.5) := Real.exp_pos _
  have hv0 : (0 : ℝ) < Real.exp (-14) := Real.exp_pos _
  have h1u : (0 : ℝ) < 1 + Real.exp (-27.5) := by linarith
  have h1v : (0 : ℝ) < 1 + Real.exp (-14) := by linarith
  have ha : (2 / 3 : ℝ) < 1 / (1 + Real.exp (-27.5)) := by
    rw [lt_div_iff₀ h1u]
    nlinarith [exp_neg_27_half_lt_half]
  have ha2 : 1 / (1 + Real.exp (-27.5)) < 1 := by
    rw [div_lt_one h1u]
    linarith
  have hb : (1 / 2 : ℝ) < 1 / (1 + Real.exp (-14)) := by
    rw [lt_div_iff₀ h1v]
    nlinarith [exp_neg_14_lt_one]
  have hb2 : 1 / (1 + Real.exp (-14)) < 1 := by
    rw [div_lt_one h1v]
    linarith
  constructor <;> nlinarith

/-- With both flow rates zero the leak score stays below the emission floor,
for every pair of battery levels. -/
lemma leak_prob_zero_flows_lt_50 (b1 b2 : ℝ) :
    compute_leak_probability_sigmoid 0 0 b1 b2 < 50 := by
  rw [clps_unfold]
  have s1 : sigmoid ((0 + 0) / 2 : ℝ) 50 0.1 = 1 / (1 + Real.exp 5) := by
    unfold sigmoid
    norm_num
  have s2 : sigmoid |(0 : ℝ) - 0| 5 0.5 = 1 / (1 + Real.exp 2.5) := by
    unfold sigmoid
    norm_num
  rw [s1, s2]
  have h3p := sigmoid_pos ((b1 + b2) / 2) 30 0.2
  have h3o := sigmoid_lt_one ((b1 + b2) / 2) 30 0.2
  have hu0 : (0 : ℝ) < Real.exp 5 := Real.exp_pos _
  have hv0 : (0 : ℝ) < Real.exp 2.5 := Real.exp_pos _
  have h1u : (0 : ℝ) < 1 + Real.exp 5 := by linarith
  have h1v : (0 : ℝ) < 1 + Real.exp 2.5 := by linarith
  have ha : 1 / (1 + Real.exp 5) < 1 / 101 := by
    rw [div_lt_div_iff₀ h1u (by norm_num)]
    nlinarith [exp_five_gt_100]
  have hb : 1 / (1 + Real.exp 2.5) < 1 / 2 := by
    rw [div_lt_div_iff₀ h1v (by norm_num)]
    nlinarith [one_lt_exp_two_half]
  have ha0 : (0 : ℝ) < 1 / (1 + Real.exp 5) := by positivity
  have hb0 : (0 : ℝ) < 1 / (1 + Real.exp 2.5) := by positivity
  nlinarith

/-! ## Concrete readings and the alerts they generate on one edge -/

/-- A benign reading: flow 0, battery 100. -/
noncomputable def r_ok100 : Reading := { flow_rate := 0, battery_level := 100 }

/-- A low-battery reading: flow 0, battery 10. -/
noncomputable def r_low10 : Reading := { flow_rate := 0, battery_level := 10 }

/-- Scenario A parent reading: flow 80, battery 100. -/
noncomputable def r_flow80 : Reading := { flow_rate := 80, battery_level := 100 }

/-- Scenario A child reading: flow 20, battery 100. -/
noncomputable def r_flow20 : Reading := { flow_rate := 20, battery_level := 100 }

/-- The low-battery alert the rule block creates for sensor `s`. -/
noncomputable def low_battery_alert (s : String) : Alert :=
  { sensor_from := s, sensor_to := s, alert_type := AlertType.low_battery,
    severity := Severity.low, probability := 90, status := AlertStatus.active }

/-- The leak alert created for the Scenario A edge. -/
noncomputable def scenA_leak_alert : Alert :=
  { sensor_from := "P", sensor_to := "C", alert_type := AlertType.leak,
    severity := Severity.medium,
    probability := compute_leak_probability_sigmoid 80 20 100 100,
    status := AlertStatus.active }

lemma edge_alerts_parent_low (p c : String) :
    edge_alerts p c r_low10 r_ok100 = [low_battery_alert p] := by
  have h := leak_prob_zero_flows_lt_50 (10 : ℝ) 100
  simp only [edge_alerts, r_low10, r_ok100]
  rw [if_neg (by simpa using not_le.mpr h),
    if_neg (by norm_num [ANOMALY_FLOW_DROP] :
      ¬((0 : ℝ) - 0 < -ANOMALY_FLOW_DROP))]
  simp [List.filter, low_battery_alert, LOW_BATTERY_THRESHOLD]
  norm_num

lemma edge_alerts_child_low (p c : String) :
    edge_alerts p c r_ok100 r_low10 = [low_battery_alert c] := by
  have h := leak_prob_zero_flows_lt_50 (100 : ℝ) 10
  simp only [edge_alerts, r_ok100, r_low10]
  rw [if_neg (by simpa using not_le.mpr h),
    if_neg (by norm_num [ANOMALY_FLOW_DROP] :
      ¬((0 : ℝ) - 0 < -ANOMALY_FLOW_DROP))]
  simp [List.filter, low_battery_alert, LOW_BATTERY_THRESHOLD]
  norm_num

lemma edge_alerts_scenA :
    edge_alerts "P" "C" r_flow80 r_flow20 = [scenA_leak_alert] := by
  obtain ⟨h50, h70⟩ := leak_prob_80_20
  have hsev : severity_of (compute_leak_probability_sigmoid 80 20 100 100) =
      Severity.medium := by
    unfold severity_of
    rw [if_neg (not_lt.mpr h50), if_pos h70]
  simp only [edge_alerts, r_flow80, r_flow20]
  rw [if_pos h50, hsev,
    if_neg (by norm_num [ANOMALY_FLOW_DROP] :
      ¬((80 : ℝ) - 20 < -ANOMALY_FLOW_DROP))]
  simp [List.filter, scenA_leak_alert, LOW_BATTERY_THRESHOLD]
  norm_num

/-! ## Unfolding helpers for the traversal -/

lemma traverse_zero (topology : String → List String)
    (latest : String → Option Reading) (s : String) :
    traverse_and_check topology latest 0 s = none := rfl

lemma traverse_succ_eq (topology : String → List String)
    (latest : String → Option Reading) (fuel : Nat) (parent_id : String)
    (parent_data : Reading) (h : latest parent_id = some parent_data) :
    traverse_and_check topology latest (fuel + 1) parent_id =
      (topology parent_id).foldr
        (fun child_id acc =>
          match latest child_id with
          | none => acc
          | some child_data =>
            match traverse_and_check topology latest fuel child_id, acc with
            | some sub, some rest =>
              some (edge_alerts parent_id child_id parent_data child_data
                    ++ sub ++ rest)
            | _, _ => none)
        (some []) := by
  simp only [traverse_and_check, h]

lemma traverse_leaf (topology : String → List String)
    (latest : String → Option Reading) (fuel : Nat) (s : String)
    (r : Reading) (hr : latest s = some r) (h : topology s = []) :
    traverse_and_check topology latest (fuel + 1) s = some [] := by
  rw [traverse_succ_eq topology latest fuel s r hr, h]
  rfl

/-! ## C1: cyclic topology (edges A→B, B→C, C→B)

`build_topology` and the traversal perform no structural validation; on this
cyclic edge set the recursion never returns, which the fuelled embedding
renders as fuel exhaustion (`none`) at every depth. -/

/-- Cyclic edge set: A→B, B→C, C→B. -/
def cycle_edges : List (String × String) := [("A", "B"), ("B", "C"), ("C", "B")]

/-- The three registered sensors of the cyclic fixture. -/
def cycle_sensors : List String := ["A", "B", "C"]

/-- Every sensor of the cyclic fixture has a benign reading in the batch. -/
noncomputable def cycle_readings : String → Option Reading :=
  fun _ => some r_ok100

lemma cycle_topo_A : build_topology cycle_edges "A" = ["B"] := by decide
lemma cycle_topo_B : build_topology cycle_edges "B" = ["C"] := by decide
lemma cycle_topo_C : build_topology cycle_edges "C" = ["B"] := by decide
lemma cycle_roots : pass_roots cycle_edges cycle_sensors = ["A"] := by decide

lemma cycle_traverse_BC_none (n : Nat) :
    traverse_and_check (build_topology cycle_edges) cycle_readings n "B" = none ∧
    traverse_and_check (build_topology cycle_edges) cycle_readings n "C" = none := by
  induction n with
  | zero => exact ⟨rfl, rfl⟩
  | succ n ih =>
    constructor
    · rw [traverse_succ_eq _ _ n "B" r_ok100 rfl, cycle_topo_B]
      simp [cycle_readings, ih.2]
    · rw [traverse_succ_eq _ _ n "C" r_ok100 rfl, cycle_topo_C]
      simp [cycle_readings, ih.1]

lemma cycle_traverse_A_none (n : Nat) :
    traverse_and_check (build_topology cycle_edges) cycle_readings n "A" = none := by
  cases n with
  | zero => rfl
  | succ n =>
    rw [traverse_succ_eq _ _ n "A" r_ok100 rfl, cycle_topo_A]
    simp [cycle_readings, (cycle_traverse_BC_none n).1]

/-- C1: on a cyclic topology the engine raises no structural error — the
traversal simply starts and never completes: for every recursion-depth bound
the fuelled pass exhausts its fuel, i.e. the source recursion is unbounded. -/
theorem C1_cycle_diverges (fuel : Nat) :
    process_sensor_data_traversal cycle_edges cycle_sensors cycle_readings
      (fun _ => none) fuel = none := by
  have hlat : (fun s => get_latest_data s cycle_readings (fun _ => none)) =
      cycle_readings := by
    funext s
    rfl
  unfold process_sensor_data_traversal
  rw [hlat, cycle_roots]
  simp [cycle_traverse_A_none fuel]

/-! ## C2: a forest (A→B, A→C) whose root has a low battery

Both evaluated edges have A as an endpoint, so one pass creates two alert
rows with the identical dedup key (A, A, low_battery, active): the engine
performs no deduplication and the alert table carries no uniqueness
constraint. -/

/-- Forest edge set: A→B, A→C. -/
def multi_edges : List (String × String) := [("A", "B"), ("A", "C")]

/-- The three registered sensors of the forest fixture. -/
def multi_sensors : List String := ["A", "B", "C"]

/-- Batch readings: A has battery 10, B and C battery 100, all flows 0. -/
noncomputable def multi_readings : String → Option Reading :=
  fun s => some (if s = "A" then r_low10 else r_ok100)

lemma multi_topo_A : build_topology multi_edges "A" = ["B", "C"] := by decide
lemma multi_topo_B : build_topology multi_edges "B" = [] := by decide
lemma multi_topo_C : build_topology multi_edges "C" = [] := by decide
lemma multi_roots : pass_roots multi_edges multi_sensors = ["A"] := by decide

lemma multi_read_A : multi_readings "A" = some r_low10 := by
  simp [multi_readings]

lemma multi_read_B : multi_readings "B" = some r_ok100 := by
  simp [multi_readings]

lemma multi_read_C : multi_readings "C" = some r_ok100 := by
  simp [multi_readings]

lemma multi_traverse_B :
    traverse_and_check (build_topology multi_edges) multi_readings 1 "B" =
      some [] :=
  traverse_leaf _ _ 0 "B" r_ok100 multi_read_B multi_topo_B

lemma multi_traverse_C :
    traverse_and_check (build_topology multi_edges) multi_readings 1 "C" =
      some [] :=
  traverse_leaf _ _ 0 "C" r_ok100 multi_read_C multi_topo_C

lemma multi_traverse_A :
    traverse_and_check (build_topology multi_edges) multi_readings 2 "A" =
      some [low_battery_alert "A", low_battery_alert "A"] := by
  show traverse_and_check (build_topology multi_edges) multi_readings (1 + 1)
    "A" = _
  rw [traverse_succ_eq _ _ 1 "A" r_low10 multi_read_A, multi_topo_A]
  simp only [List.foldr_cons, List.foldr_nil, multi_read_B, multi_read_C,
    multi_traverse_B, multi_traverse_C, edge_alerts_parent_low]
  simp

lemma multi_pass :
    process_sensor_data_traversal multi_edges multi_sensors multi_readings
      (fun _ => none) 2 =
      some [low_battery_alert "A", low_battery_alert "A"] := by
  have hlat : (fun s => get_latest_data s multi_readings (fun _ => none)) =
      multi_readings := by
    funext s
    rfl
  unfold process_sensor_data_traversal
  rw [hlat, multi_roots]
  simp only [List.foldr_cons, List.foldr_nil, multi_traverse_A]
  simp

/-- C2: a single ingestion pass over the valid forest A→B, A→C with a low
battery at A persists two alert rows with the identical dedup key
(source A, destination A, type low_battery, status active) — the second
insertion is neither skipped nor surfaced as a conflict. -/
theorem C2_duplicate_dedup_key :
    ((process_sensor_data_traversal multi_edges multi_sensors multi_readings
        (fun _ => none) 2).getD []).countP
      (fun a => decide (a.sensor_from = "A" ∧ a.sensor_to = "A" ∧
        a.alert_type = AlertType.low_battery ∧
        a.status = AlertStatus.active)) = 2 := by
  rw [multi_pass]
  simp [low_battery_alert]

/-! ## C9: a chain A→B→C whose middle sensor has a low battery

B is an endpoint of both evaluated edges, so one pass creates two
low-battery alerts for B, not exactly one. -/

/-- Chain edge set: A→B, B→C. -/
def chain_edges : List (String × String) := [("A", "B"), ("B", "C")]

/-- The three registered sensors of the chain fixture. -/
def chain_sensors : List String := ["A", "B", "C"]

/-- Batch readings: B has battery 10, A and C battery 100, all flows 0. -/
noncomputable def chain_readings : String → Option Reading :=
  fun s => some (if s = "B" then r_low10 else r_ok100)

lemma chain_topo_A : build_topology chain_edges "A" = ["B"] := by decide
lemma chain_topo_B : build_topology chain_edges "B" = ["C"] := by decide
lemma chain_topo_C : build_topology chain_edges "C" = [] := by decide
lemma chain_roots : pass_roots chain_edges chain_sensors = ["A"] := by decide

lemma chain_read_A : chain_readings "A" = some r_ok100 := by
  simp [chain_readings]

lemma chain_read_B : chain_readings "B" = some r_low10 := by
  simp [chain_readings]

lemma chain_read_C : chain_readings "C" = some r_ok100 := by
  simp [chain_readings]

lemma chain_traverse_C :
    traverse_and_check (build_topology chain_edges) chain_readings 1 "C" =
      some [] :=
  traverse_leaf _ _ 0 "C" r_ok100 chain_read_C chain_topo_C

lemma chain_traverse_B :
    traverse_and_check (build_topology chain_edges) chain_readings 2 "B" =
      some [low_battery_alert "B"] := by
  show traverse_and_check (build_topology chain_edges) chain_readings (1 + 1)
    "B" = _
  rw [traverse_succ_eq _ _ 1 "B" r_low10 chain_read_B, chain_topo_B]
  simp only [List.foldr_cons, List.foldr_nil, chain_read_C, chain_traverse_C,
    edge_alerts_parent_low]
  simp

lemma chain_traverse_A :
    traverse_and_check (build_topology chain_edges) chain_readings 3 "A" =
      some [low_battery_alert "B", low_battery_alert "B"] := by
  show traverse_and_check (build_topology chain_edges) chain_readings (2 + 1)
    "A" = _
  rw [traverse_succ_eq _ _ 2 "A" r_ok100 chain_read_A, chain_topo_A]
  simp only [List.foldr_cons, List.foldr_nil, chain_read_B, chain_traverse_B,
    edge_alerts_child_low]
  simp

lemma chain_pass :
    process_sensor_data_traversal chain_edges chain_sensors chain_readings
      (fun _ => none) 3 =
      some [low_battery_alert "B", low_battery_alert "B"] := by
  have hlat : (fun s => get_latest_data s chain_readings (fun _ => none)) =
      chain_readings := by
    funext s
    rfl
  unfold process_sensor_data_traversal
  rw [hlat, chain_roots]
  simp only [List.foldr_cons, List.foldr_nil, chain_traverse_A]
  simp

/-- C9 counterexample: on the chain A→B→C with battery 10 at B, one pass
emits two low-battery alerts for B, not exactly one. -/
theorem C9_counterexample :
    ((process_sensor_data_traversal chain_edges chain_sensors chain_readings
        (fun _ => none) 3).getD []).countP
      (fun a => decide (a.alert_type = AlertType.low_battery ∧
        a.sensor_from = "B")) = 2 := by
  rw [chain_pass]
  simp [low_battery_alert]

/-! ## C3: Scenario A (parent flow 80, child flow 20, batteries 100) -/

/-- Scenario A edge set: P→C. -/
def scenA_edges : List (String × String) := [("P", "C")]

/-- The two sensors of the Scenario A fixture. -/
def scenA_sensors : List String := ["P", "C"]

/-- Batch readings: P carries flow 80, C flow 20, both batteries 100. -/
noncomputable def scenA_readings : String → Option Reading :=
  fun s => some (if s = "P" then r_flow80 else r_flow20)

lemma scenA_topo_P : build_topology scenA_edges "P" = ["C"] := by decide
lemma scenA_topo_C : build_topology scenA_edges "C" = [] := by decide
lemma scenA_roots : pass_roots scenA_edges scenA_sensors = ["P"] := by decide

lemma scenA_read_P : scenA_readings "P" = some r_flow80 := by
  simp [scenA_readings]

lemma scenA_read_C : scenA_readings "C" = some r_flow20 := by
  simp [scenA_readings]

lemma scenA_traverse_C :
    traverse_and_check (build_topology scenA_edges) scenA_readings 1 "C" =
      some [] :=
  traverse_leaf _ _ 0 "C" r_flow20 scenA_read_C scenA_topo_C

lemma scenA_pass :
    process_sensor_data_traversal scenA_edges scenA_sensors scenA_readings
      (fun _ => none) 2 = some [scenA_leak_alert] := by
  have hlat : (fun s => get_latest_data s scenA_readings (fun _ => none)) =
      scenA_readings := by
    funext s
    rfl
  have hP : traverse_and_check (build_topology scenA_edges) scenA_readings 2
      "P" = some [scenA_leak_alert] := by
    show traverse_and_check (build_topology scenA_edges) scenA_readings (1 + 1)
      "P" = _
    rw [traverse_succ_eq _ _ 1 "P" r_flow80 scenA_read_P, scenA_topo_P]
    simp only [List.foldr_cons, List.foldr_nil, scenA_read_C,
      scenA_traverse_C, edge_alerts_scenA]
    simp
  unfold process_sensor_data_traversal
  rw [hlat, scenA_roots]
  simp only [List.foldr_cons, List.foldr_nil, hP]
  simp

/-- C3 counterexample: at parent flow 80, child flow 20 and both batteries
100, the computed leak probability is strictly below 70 (it is about 65),
contradicting the claimed `leak_prob ≥ 70` / severity-high outcome. -/
theorem C3_counterexample :
    compute_leak_probability_sigmoid 80 20 100 100 < 70 :=
  leak_prob_80_20.2

/-- C3 amended: for parent flow 80, child flow 20 and both batteries 100,
the leak probability lies in [50, 70), and the traversal over that single
parent→child edge emits exactly one leak alert — with severity medium. -/
theorem C3_scenarioA_amended :
    50 ≤ compute_leak_probability_sigmoid 80 20 100 100 ∧
    compute_leak_probability_sigmoid 80 20 100 100 < 70 ∧
    process_sensor_data_traversal scenA_edges scenA_sensors scenA_readings
      (fun _ => none) 2 =
      some [{ sensor_from := "P", sensor_to := "C",
              alert_type := AlertType.leak, severity := Severity.medium,
              probability := compute_leak_probability_sigmoid 80 20 100 100,
              status := AlertStatus.active }] :=
  ⟨leak_prob_80_20.1, leak_prob_80_20.2, by rw [scenA_pass]; rfl⟩

/-! ## C4: the leak emission rule -/

/-- C4: on every evaluated parent→child edge, a leak alert is persisted iff
the leak probability is at least 50; its severity is medium when the
probability is below 70 and high otherwise; and no persisted leak alert ever
has severity low. -/
theorem C4_leak_emission (p c : String) (pd cd : Reading) :
    ((edge_alerts p c pd cd).filter
        (fun a => decide (a.alert_type = AlertType.leak))) =
      (if 50 ≤ compute_leak_probability_sigmoid pd.flow_rate cd.flow_rate
            pd.battery_level cd.battery_level then
        [{ sensor_from := p, sensor_to := c, alert_type := AlertType.leak,
           severity := if compute_leak_probability_sigmoid pd.flow_rate
               cd.flow_rate pd.battery_level cd.battery_level < 70 then
             Severity.medium else Severity.high,
           probability := compute_leak_probability_sigmoid pd.flow_rate
             cd.flow_rate pd.battery_level cd.battery_level,
           status := AlertStatus.active }]
       else []) ∧
    ((edge_alerts p c pd cd).filter
        (fun a => decide (a.alert_type = AlertType.leak ∧
          a.severity = Severity.low))) = [] := by
  have hlow : ∀ (g : Alert → Bool),
      (∀ a : Alert, a.alert_type = AlertType.low_battery → g a = false) →
      (((([(p, pd), (c, cd)].filter
          (fun sd => decide (sd.2.battery_level < LOW_BATTERY_THRESHOLD))).map
          (fun sd =>
            ({ sensor_from := sd.1, sensor_to := sd.1,
               alert_type := AlertType.low_battery, severity := Severity.low,
               probability := 90, status := AlertStatus.active } : Alert))) :
            List Alert).filter g) = [] := by
    intro g hg
    rw [List.filter_eq_nil_iff]
    intro a ha
    rcases List.mem_map.mp ha with ⟨sd, _, rfl⟩
    simp only [Bool.not_eq_true]
    apply hg
    rfl
  constructor
  · simp only [edge_alerts, List.filter_append]
    rw [hlow _ (by intro a ha; simp [ha])]
    by_cases h50 : 50 ≤ compute_leak_probability_sigmoid pd.flow_rate
        cd.flow_rate pd.battery_level cd.battery_level
    · rw [if_pos h50, if_pos h50]
      have hsev : severity_of (compute_leak_probability_sigmoid pd.flow_rate
          cd.flow_rate pd.battery_level cd.battery_level) =
          if compute_leak_probability_sigmoid pd.flow_rate cd.flow_rate
              pd.battery_level cd.battery_level < 70 then Severity.medium
          else Severity.high := by
        unfold severity_of
        rw [if_neg (not_lt.mpr h50)]
      by_cases hdrop : pd.flow_rate - cd.flow_rate < -ANOMALY_FLOW_DROP
      · rw [if_pos hdrop]
        simp [hsev]
      · rw [if_neg hdrop]
        simp [hsev]
    · rw [if_neg h50, if_neg h50]
      by_cases hdrop : pd.flow_rate - cd.flow_rate < -ANOMALY_FLOW_DROP
      · rw [if_pos hdrop]
        simp
      · rw [if_neg hdrop]
        simp
  · simp only [edge_alerts, List.filter_append]
    rw [hlow _ (by intro a ha; simp [ha])]
    by_cases h50 : 50 ≤ compute_leak_probability_sigmoid pd.flow_rate
        cd.flow_rate pd.battery_level cd.battery_level
    · rw [if_pos h50]
      have hsev : severity_of (compute_leak_probability_sigmoid pd.flow_rate
          cd.flow_rate pd.battery_level cd.battery_level) ≠ Severity.low := by
        unfold severity_of
        rw [if_neg (not_lt.mpr h50)]
        by_cases h70 : compute_leak_probability_sigmoid pd.flow_rate
            cd.flow_rate pd.battery_level cd.battery_level < 70
        · simp [h70]
        · simp [h70]
      by_cases hdrop : pd.flow_rate - cd.flow_rate < -ANOMALY_FLOW_DROP
      · rw [if_pos hdrop]
        simp [hsev]
      · rw [if_neg hdrop]
        simp [hsev]
    · rw [if_neg h50]
      by_cases hdrop : pd.flow_rate - cd.flow_rate < -ANOMALY_FLOW_DROP
      · rw [if_pos hdrop]
        simp
      · rw [if_neg hdrop]
        simp

/-! ## C9 amended: the per-edge low-battery rule -/

/-- C9 amended: every low-battery alert generated on an evaluated edge has
source equal to destination, severity low, probability 90 and active status;
and each evaluated edge contributes one low-battery alert per endpoint whose
battery is below the threshold — so a sensor receives one such alert for
every evaluated edge it is an endpoint of, not one per pass. -/
theorem C9_amended (p c s : String) (pd cd : Reading) (a : Alert)
    (ha : a ∈ edge_alerts p c pd cd)
    (htype : a.alert_type = AlertType.low_battery) :
    a.sensor_to = a.sensor_from ∧ a.severity = Severity.low ∧
    a.probability = 90 ∧ a.status = AlertStatus.active ∧
    (edge_alerts p c pd cd).countP
        (fun x => decide (x.alert_type = AlertType.low_battery ∧
          x.sensor_from = s)) =
      ((if pd.battery_level < LOW_BATTERY_THRESHOLD ∧ p = s then 1 else 0) +
       (if cd.battery_level < LOW_BATTERY_THRESHOLD ∧ c = s then 1 else 0)) := by
  have hcount : (edge_alerts p c pd cd).countP
      (fun x => decide (x.alert_type = AlertType.low_battery ∧
        x.sensor_from = s)) =
      ((if pd.battery_level < LOW_BATTERY_THRESHOLD ∧ p = s then 1 else 0) +
       (if cd.battery_level < LOW_BATTERY_THRESHOLD ∧ c = s then 1 else 0)) := by
    simp only [edge_alerts, List.countP_append]
    have hseg : ∀ (b : Prop) (inst : Decidable b) (x : Alert),
        x.alert_type ≠ AlertType.low_battery →
        List.countP
          (fun y => decide (y.alert_type = AlertType.low_battery ∧
            y.sensor_from = s)) (if b then [x] else []) = 0 := by
      intro b inst x hx
      split
      · simp [hx]
      · simp
    rw [hseg _ _ _ (by simp), hseg _ _ _ (by simp), List.countP_map]
    by_cases g1 : pd.battery_level < LOW_BATTERY_THRESHOLD <;>
      by_cases g2 : cd.battery_level < LOW_BATTERY_THRESHOLD <;>
      by_cases hps : p = s <;>
      by_cases hcs : c = s <;>
      simp [List.filter, List.countP, List.countP.go, Function.comp,
        g1, g2, hps, hcs]
  have hmem : a.sensor_to = a.sensor_from ∧ a.severity = Severity.low ∧
      a.probability = 90 ∧ a.status = AlertStatus.active := by
    simp only [edge_alerts, List.mem_append] at ha
    rcases ha with (h | h) | h
    · exfalso
      revert h
      split
      · intro h
        rw [List.mem_singleton] at h
        subst h
        simp at htype
      · intro h
        simp at h
    · exfalso
      revert h
      split
      · intro h
        rw [List.mem_singleton] at h
        subst h
        simp at htype
      · intro h
        simp at h
    · rcases List.mem_map.mp h with ⟨sd, _, rfl⟩
      exact ⟨rfl, rfl, rfl, rfl⟩
  exact ⟨hmem.1, hmem.2.1, hmem.2.2.1, hmem.2.2.2, hcount⟩

/-- C9 witness: the amended low-battery rule instantiated on the edge
(A, B) with parent battery 10 and child battery 100. -/
theorem C9_amended_witness :
    (low_battery_alert "A").sensor_to = (low_battery_alert "A").sensor_from ∧
    (low_battery_alert "A").severity = Severity.low ∧
    (low_battery_alert "A").probability = 90 ∧
    (low_battery_alert "A").status = AlertStatus.active ∧
    (edge_alerts "A" "B" r_low10 r_ok100).countP
        (fun x => decide (x.alert_type = AlertType.low_battery ∧
          x.sensor_from = "A")) =
      ((if r_low10.battery_level < LOW_BATTERY_THRESHOLD ∧ "A" = "A" then 1
        else 0) +
       (if r_ok100.battery_level < LOW_BATTERY_THRESHOLD ∧ "B" = "A" then 1
        else 0)) :=
  C9_amended "A" "B" "A" r_low10 r_ok100 (low_battery_alert "A")
    (by rw [edge_alerts_parent_low]; exact List.mem_singleton.mpr rfl) rfl

/-! ## Localization of the smoothing pass

One fold step only ever appends a row carrying the processed sensor's id, so
a sensor's slice of the table is changed exactly once per pass — by its own
step — and the window each step reads depends only on that slice. -/

lemma process_smoothing_nil (nr dbl : String → Option SensorDataRow)
    (table : List ProcessedDataRow) :
    process_sensor_data_smoothing [] nr dbl table = table := rfl

lemma process_smoothing_cons (t : String) (sensors : List String)
    (nr dbl : String → Option SensorDataRow) (table : List ProcessedDataRow) :
    process_sensor_data_smoothing (t :: sensors) nr dbl table =
      process_sensor_data_smoothing sensors nr dbl
        (match get_latest_data t nr dbl with
         | none => table
         | some d => table ++ [smoothing_step t d table]) := rfl

lemma rows_for_append_one (table : List ProcessedDataRow)
    (r : ProcessedDataRow) (s : String) :
    rows_for (table ++ [r]) s =
      rows_for table s ++ (if r.sensor_id == s then [r] else []) := by
  unfold rows_for
  rw [List.filter_append]
  cases h : r.sensor_id == s <;> simp [List.filter, h]

lemma smoothing_step_congr (s : String) (d : SensorDataRow)
    (t1 t2 : List ProcessedDataRow) (h : rows_for t1 s = rows_for t2 s) :
    smoothing_step s d t1 = smoothing_step s d t2 := by
  have h' : t1.filter (fun r => r.sensor_id == s) =
      t2.filter (fun r => r.sensor_id == s) := h
  simp only [smoothing_step, last_proc_for, h']

lemma rows_for_smoothing_not_mem (sensors : List String)
    (nr dbl : String → Option SensorDataRow) :
    ∀ (table : List ProcessedDataRow) (s : String), s ∉ sensors →
      rows_for (process_sensor_data_smoothing sensors nr dbl table) s =
        rows_for table s := by
  induction sensors with
  | nil =>
    intro table s _
    rfl
  | cons t ts ih =>
    intro table s hs
    rw [process_smoothing_cons]
    have hts : s ∉ ts := fun h => hs (List.mem_cons_of_mem _ h)
    have hne : (t == s) = false :=
      beq_eq_false_iff_ne.mpr (fun h => hs (h ▸ List.mem_cons_self t ts))
    cases hget : get_latest_data t nr dbl with
    | none => exact ih table s hts
    | some d =>
      rw [ih _ s hts, rows_for_append_one]
      have hstep : ((smoothing_step t d table).sensor_id == s) = false := hne
      simp [hstep]

lemma rows_for_smoothing_no_reading (sensors : List String)
    (nr dbl : String → Option SensorDataRow) :
    ∀ (table : List ProcessedDataRow) (s : String),
      get_latest_data s nr dbl = none →
      rows_for (process_sensor_data_smoothing sensors nr dbl table) s =
        rows_for table s := by
  induction sensors with
  | nil =>
    intro table s _
    rfl
  | cons t ts ih =>
    intro table s hnone
    rw [process_smoothing_cons]
    cases hget : get_latest_data t nr dbl with
    | none => exact ih table s hnone
    | some d =>
      rw [ih _ s hnone, rows_for_append_one]
      have hne : (t == s) = false := by
        apply beq_eq_false_iff_ne.mpr
        intro h
        rw [h] at hget
        rw [hget] at hnone
        exact Option.noConfusion hnone
      have hstep : ((smoothing_step t d table).sensor_id == s) = false := hne
      simp [hstep]

lemma rows_for_smoothing_mem (sensors : List String)
    (nr dbl : String → Option SensorDataRow) :
    ∀ (table : List ProcessedDataRow) (s : String) (d : SensorDataRow),
      sensors.Nodup → s ∈ sensors → get_latest_data s nr dbl = some d →
      rows_for (process_sensor_data_smoothing sensors nr dbl table) s =
        rows_for table s ++ [smoothing_step s d table] := by
  induction sensors with
  | nil =>
    intro table s d _ hs _
    exact absurd hs (List.not_mem_nil s)
  | cons t ts ih =>
    intro table s d hnd hs hget
    rw [process_smoothing_cons]
    rcases List.mem_cons.mp hs with rfl | hmem
    · rw [hget]
      have hnotin : s ∉ ts := (List.nodup_cons.mp hnd).1
      rw [rows_for_smoothing_not_mem ts nr dbl _ s hnotin, rows_for_append_one]
      have hstep : ((smoothing_step s d table).sensor_id == s) = true :=
        beq_self_eq_true s
      simp [hstep]
    · have hne : t ≠ s := fun h => (List.nodup_cons.mp hnd).1 (h ▸ hmem)
      have hnd' : ts.Nodup := (List.nodup_cons.mp hnd).2
      cases hget2 : get_latest_data t nr dbl with
      | none => exact ih table s d hnd' hmem hget
      | some dt =>
        rw [ih _ s d hnd' hmem hget]
        have hstep : ((smoothing_step t dt table).sensor_id == s) = false :=
          beq_eq_false_iff_ne.mpr hne
        have hrows : rows_for (table ++ [smoothing_step t dt table]) s =
            rows_for table s := by
          rw [rows_for_append_one]
          simp [hstep]
        rw [hrows, smoothing_step_congr s d _ table hrows]

/-! ## C6 and C7: the smoothing recurrence and its frame -/

/-- C6: in a pass over distinct sensors, the sensor's appended row has
smoothed flow equal to the mean of the smoothed values of its at most 5 most
recent prior processed rows when any exist — else the raw flow of its latest
reading — and flow delta equal to the new smoothed flow minus the newest
prior smoothed flow when a prior row exists, else 0. -/
theorem C6_smoothing_recurrence (sensors : List String)
    (nr dbl : String → Option SensorDataRow)
    (table : List ProcessedDataRow) (s : String) (d : SensorDataRow)
    (hnd : sensors.Nodup) (hs : s ∈ sensors)
    (hget : get_latest_data s nr dbl = some d) :
    rows_for (process_sensor_data_smoothing sensors nr dbl table) s =
      rows_for table s ++ [smoothing_step s d table] ∧
    (smoothing_step s d table).smoothed_flow =
      (if last_proc_for table s = [] then d.flow_rate
       else mean ((last_proc_for table s).map (fun r => r.smoothed_flow))) ∧
    (smoothing_step s d table).flow_diff =
      (match last_proc_for table s with
       | [] => 0
       | p0 :: _ =>
         (smoothing_step s d table).smoothed_flow - p0.smoothed_flow) := by
  refine ⟨rows_for_smoothing_mem sensors nr dbl table s d hnd hs hget, ?_, ?_⟩
  · cases h : last_proc_for table s with
    | nil => simp [smoothing_step, h]
    | cons p0 ps => simp [smoothing_step, h, mean]
  · cases h : last_proc_for table s with
    | nil => simp [smoothing_step, h]
    | cons p0 ps => simp [smoothing_step, h]

/-- A batch reading used to instantiate the smoothing theorems. -/
def w_reading : SensorDataRow :=
  { sensor_id := "S", flow_rate := 7, battery_level := 100 }

/-- A pre-existing processed row used to instantiate the smoothing theorems. -/
def w_row : ProcessedDataRow :=
  { sensor_id := "S", smoothed_flow := 3, flow_diff := 0 }

/-- C6 witness: the smoothing recurrence instantiated on sensor S with one
prior processed row of smoothed flow 3 and a fresh reading of flow 7. -/
theorem C6_smoothing_recurrence_witness :
    rows_for (process_sensor_data_smoothing ["S"] (fun _ => some w_reading)
        (fun _ => none) [w_row]) "S" =
      rows_for [w_row] "S" ++ [smoothing_step "S" w_reading [w_row]] ∧
    (smoothing_step "S" w_reading [w_row]).smoothed_flow =
      (if last_proc_for [w_row] "S" = [] then w_reading.flow_rate
       else mean ((last_proc_for [w_row] "S").map (fun r => r.smoothed_flow))) ∧
    (smoothing_step "S" w_reading [w_row]).flow_diff =
      (match last_proc_for [w_row] "S" with
       | [] => 0
       | p0 :: _ =>
         (smoothing_step "S" w_reading [w_row]).smoothed_flow -
           p0.smoothed_flow) :=
  C6_smoothing_recurrence ["S"] (fun _ => some w_reading) (fun _ => none)
    [w_row] "S" w_reading (by decide) (by decide) rfl

/-- C7 counterexample: a sensor that delivered nothing in the current batch
but has a persisted reading still receives a new processed row — the
ProcessedReading table is not left unchanged for it. -/
theorem C7_counterexample :
    process_sensor_data_smoothing ["S"] (fun _ => none)
        (fun _ => some w_reading) [] =
      [{ sensor_id := "S", smoothed_flow := 7, flow_diff := 0 }] ∧
    process_sensor_data_smoothing ["S"] (fun _ => none)
        (fun _ => some w_reading) [] ≠ [] := by
  constructor
  · rfl
  · decide

/-- C7 amended: in a pass over distinct sensors, each listed sensor's slice
of the processed table gains exactly one row when a latest reading is
available for it — whether delivered in the batch or persisted earlier — and
is unchanged exactly when no reading is available anywhere. -/
theorem C7_one_row_per_available_reading (sensors : List String)
    (nr dbl : String → Option SensorDataRow)
    (table : List ProcessedDataRow) (s : String)
    (hnd : sensors.Nodup) (hs : s ∈ sensors) :
    rows_for (process_sensor_data_smoothing sensors nr dbl table) s =
      rows_for table s ++
        (match get_latest_data s nr dbl with
         | some d => [smoothing_step s d table]
         | none => []) := by
  cases hget : get_latest_data s nr dbl with
  | some d => exact rows_for_smoothing_mem sensors nr dbl table s d hnd hs hget
  | none =>
    rw [rows_for_smoothing_no_reading sensors nr dbl table s hget]
    simp

/-- C7 witness: the amended frame property instantiated on sensor S with a
batch reading. -/
theorem C7_one_row_witness :
    rows_for (process_sensor_data_smoothing ["S"] (fun _ => some w_reading)
        (fun _ => none) []) "S" =
      rows_for [] "S" ++
        (match get_latest_data "S" (fun _ => some w_reading)
            (fun _ => none) with
         | some d => [smoothing_step "S" d []]
         | none => []) :=
  C7_one_row_per_available_reading ["S"] (fun _ => some w_reading)
    (fun _ => none) [] "S" (by decide) (by decide)

/-! ## C10: the smoothed value is a mean — bounds and sign preservation -/

lemma mem_of_mem_last_proc {table : List ProcessedDataRow} {s : String}
    {r : ProcessedDataRow} (h : r ∈ last_proc_for table s) : r ∈ table := by
  unfold last_proc_for at h
  have h1 : r ∈ (table.filter (fun x => x.sensor_id == s)).reverse :=
    List.take_subset 5 _ h
  exact List.mem_of_mem_filter (List.mem_reverse.mp h1)

lemma smoothing_step_nonneg (t : String) (dt : SensorDataRow)
    (table : List ProcessedDataRow) (hflow : 0 ≤ dt.flow_rate)
    (htbl : ∀ r ∈ table, 0 ≤ r.smoothed_flow) :
    0 ≤ (smoothing_step t dt table).smoothed_flow := by
  show 0 ≤ (if (last_proc_for table t).isEmpty then dt.flow_rate
    else ((last_proc_for table t).map (fun p => p.smoothed_flow)).sum /
      ((last_proc_for table t).length : ℚ))
  split
  · exact hflow
  · apply div_nonneg
    · apply List.sum_nonneg
      intro x hx
      rcases List.mem_map.mp hx with ⟨rr, hrr, rfl⟩
      exact htbl rr (mem_of_mem_last_proc hrr)
    · exact Nat.cast_nonneg _

lemma smoothing_pass_nonneg (sensors : List String)
    (nr dbl : String → Option SensorDataRow)
    (hr : ∀ t dt, get_latest_data t nr dbl = some dt → 0 ≤ dt.flow_rate) :
    ∀ (table : List ProcessedDataRow), (∀ r ∈ table, 0 ≤ r.smoothed_flow) →
      ∀ r ∈ process_sensor_data_smoothing sensors nr dbl table,
        0 ≤ r.smoothed_flow := by
  induction sensors with
  | nil =>
    intro table htbl r hrmem
    exact htbl r hrmem
  | cons t ts ih =>
    intro table htbl r hrmem
    rw [process_smoothing_cons] at hrmem
    cases hget : get_latest_data t nr dbl with
    | none =>
      rw [hget] at hrmem
      exact ih table htbl r hrmem
    | some dt =>
      rw [hget] at hrmem
      refine ih _ ?_ r hrmem
      intro x hx
      rcases List.mem_append.mp hx with hx | hx
      · exact htbl x hx
      · rw [List.mem_singleton] at hx
        subst hx
        exact smoothing_step_nonneg t dt table (hr t dt hget) htbl

/-- C10: when the smoothing window is non-empty, the newly computed smoothed
flow lies between any lower and any upper bound of the window's smoothed
values (it is their arithmetic mean); and when every existing row and every
available reading is nonnegative, every row of the table after a pass —
including all newly appended smoothed flows — is nonnegative. -/
theorem C10_mean_bounds_and_nonneg (s : String) (d : SensorDataRow)
    (table : List ProcessedDataRow) (lo hi : ℚ)
    (hne : last_proc_for table s ≠ [])
    (hlo : ∀ r ∈ last_proc_for table s, lo ≤ r.smoothed_flow)
    (hhi : ∀ r ∈ last_proc_for table s, r.smoothed_flow ≤ hi)
    (sensors : List String) (nr dbl : String → Option SensorDataRow)
    (hr : ∀ t dt, get_latest_data t nr dbl = some dt → 0 ≤ dt.flow_rate)
    (htbl : ∀ r ∈ table, 0 ≤ r.smoothed_flow) :
    lo ≤ (smoothing_step s d table).smoothed_flow ∧
    (smoothing_step s d table).smoothed_flow ≤ hi ∧
    (process_sensor_data_smoothing sensors nr dbl table).all
      (fun r => decide (0 ≤ r.smoothed_flow)) = true := by
  have hlen : 0 < ((last_proc_for table s).length : ℚ) := by
    have h := List.length_pos.mpr hne
    exact_mod_cast h
  have hval : (smoothing_step s d table).smoothed_flow =
      ((last_proc_for table s).map (fun p => p.smoothed_flow)).sum /
        ((last_proc_for table s).length : ℚ) := by
    show (if (last_proc_for table s).isEmpty then d.flow_rate
      else ((last_proc_for table s).map (fun p => p.smoothed_flow)).sum /
        ((last_proc_for table s).length : ℚ)) = _
    rw [if_neg (by simpa [List.isEmpty_iff] using hne)]
  refine ⟨?_, ?_, ?_⟩
  · rw [hval, le_div_iff₀ hlen]
    have hsum := List.card_nsmul_le_sum
      ((last_proc_for table s).map (fun p => p.smoothed_flow)) lo ?_
    · rw [nsmul_eq_mul, List.length_map] at hsum
      linarith
    · intro x hx
      rcases List.mem_map.mp hx with ⟨rr, hrr, rfl⟩
      exact hlo rr hrr
  · rw [hval, div_le_iff₀ hlen]
    have hsum := List.sum_le_card_nsmul
      ((last_proc_for table s).map (fun p => p.smoothed_flow)) hi ?_
    · rw [nsmul_eq_mul, List.length_map] at hsum
      linarith
    · intro x hx
      rcases List.mem_map.mp hx with ⟨rr, hrr, rfl⟩
      exact hhi rr hrr
  · simp only [List.all_eq_true, decide_eq_true_eq]
    exact fun r hrmem =>
      smoothing_pass_nonneg sensors nr dbl hr table htbl r hrmem

/-- A second pre-existing processed row, smoothed flow 1. -/
def w_row1 : ProcessedDataRow :=
  { sensor_id := "S", smoothed_flow := 1, flow_diff := 0 }

/-- C10 witness: the mean bounds and sign preservation instantiated on a
window holding smoothed flows 1 and 3. -/
theorem C10_mean_bounds_witness :
    1 ≤ (smoothing_step "S" w_reading [w_row1, w_row]).smoothed_flow ∧
    (smoothing_step "S" w_reading [w_row1, w_row]).smoothed_flow ≤ 3 ∧
    (process_sensor_data_smoothing ["S"] (fun _ => some w_reading)
        (fun _ => none) [w_row1, w_row]).all
      (fun r => decide (0 ≤ r.smoothed_flow)) = true :=
  C10_mean_bounds_and_nonneg "S" w_reading [w_row1, w_row] 1 3
    (by decide) (by decide) (by decide) ["S"]
    (fun _ => some w_reading) (fun _ => none)
    (by
      intro t dt h
      have h' : some w_reading = some dt := h
      injection h' with h2
      subst h2
      decide)
    (by decide)

/-! ## C8: bulk alert resolution -/

/-- C8 counterexample: bulk-resolving ids [1, 2] where row 2 is already
resolved reports count 2 — the number of matched rows — although only row 1
actually changed state, so the reported count is not the number of
active→resolved transitions. -/
theorem C8_counterexample :
    bulk_resolve_alerts [1, 2]
        [{ alert_id := 1, status := AlertStatus.active },
         { alert_id := 2, status := AlertStatus.resolved }] =
      some ([{ alert_id := 1, status := AlertStatus.resolved },
             { alert_id := 2, status := AlertStatus.resolved }], 2) ∧
    (([{ alert_id := 1, status := AlertStatus.active },
        { alert_id := 2, status := AlertStatus.resolved }] :
         List AlertRow).filter
        (fun a => decide (a.status = AlertStatus.active))).length = 1 := by
  constructor
  · rfl
  · rfl

/-- C8 amended: bulk resolution over any id set that matches at least one
row sets every matched row to resolved, leaves the table length unchanged,
and reports the number of matched rows — counting already-resolved matches
as well, not only actual state changes. -/
theorem C8_bulk_resolve (alert_ids : List Nat) (table result : List AlertRow)
    (count : Nat)
    (h : bulk_resolve_alerts alert_ids table = some (result, count)) :
    (result.filter (fun a => alert_ids.contains a.alert_id)).all
      (fun a => decide (a.status = AlertStatus.resolved)) = true ∧
    count = (table.filter (fun a => alert_ids.contains a.alert_id)).length ∧
    result.length = table.length := by
  simp only [bulk_resolve_alerts] at h
  split at h
  · exact absurd h (Option.noConfusion)
  · rw [Option.some.injEq, Prod.mk.injEq] at h
    obtain ⟨hres, hcount⟩ := h
    subst hres
    subst hcount
    refine ⟨?_, rfl, by rw [List.length_map]⟩
    rw [List.filter_map, List.all_map, List.all_eq_true]
    intro b hb
    have hbfilter := (List.mem_filter.mp hb).2
    simp only [Function.comp] at hbfilter ⊢
    by_cases hc : b.alert_id ∈ alert_ids
    · simp [hc]
    · simp [hc] at hbfilter

/-- C8 witness: the amended bulk-resolution contract instantiated on the
two-row table of the counterexample scenario. -/
theorem C8_bulk_resolve_witness :
    (([{ alert_id := 1, status := AlertStatus.resolved },
       { alert_id := 2, status := AlertStatus.resolved }] :
        List AlertRow).filter
      (fun a => List.contains [1, 2] a.alert_id)).all
      (fun a => decide (a.status = AlertStatus.resolved)) = true ∧
    2 = (([{ alert_id := 1, status := AlertStatus.active },
           { alert_id := 2, status := AlertStatus.resolved }] :
            List AlertRow).filter
          (fun a => List.contains [1, 2] a.alert_id)).length ∧
    ([{ alert_id := 1, status := AlertStatus.resolved },
      { alert_id := 2, status := AlertStatus.resolved }] :
        List AlertRow).length =
      ([{ alert_id := 1, status := AlertStatus.active },
        { alert_id := 2, status := AlertStatus.resolved }] :
          List AlertRow).length :=
  C8_bulk_resolve [1, 2]
    [{ alert_id := 1, status := AlertStatus.active },
     { alert_id := 2, status := AlertStatus.resolved }]
    [{ alert_id := 1, status := AlertStatus.resolved },
     { alert_id := 2, status := AlertStatus.resolved }] 2 rfl

end AquaLert
